import Mathlib

set_option maxRecDepth 100000

/-!
Verification development for the multi-agent handoff orchestration engine in
`blueprints/university/blueprint_university.py` (class `UniversitySupportBlueprint`).

The Python source is shallowly embedded: dictionaries become association lists,
`json.dumps` of the fixed payload shape is reproduced character-for-character
(including CPython's `ensure_ascii` escaping and default `", "` / `": "`
separators), and the `execute` conversation loop becomes a recursion over a
finite oracle of executor outcomes.  The external executor (`Swarm.run`) is out
of scope per the specification and is represented by an arbitrary response
trace conforming to its interface.
-/

namespace UniversityBlueprint

/-- Context variables: a Python `dict` of string keys to string values,
embedded as an insertion-ordered association list (Python dicts preserve
insertion order; keys are unique in every dict the program builds). -/
abbrev ContextMap := List (String × String)

/-- `d.get(k)` on a Python dict: value of the first binding of `k`, if any. -/
def ctxGet (c : ContextMap) (k : String) : Option String :=
  (c.find? (fun p => p.1 == k)).map Prod.snd

/-! ### CPython `json.dumps` for the payload shape used by the blueprint -/

/-- Lower-case hexadecimal digit, as produced by CPython's JSON encoder. -/
def hexDigit (n : Nat) : Char :=
  if n < 10 then Char.ofNat (48 + n) else Char.ofNat (87 + n)

/-- A `\uXXXX` escape with four lower-case hex digits. -/
def uEscape (n : Nat) : String :=
  "\\u" ++ String.mk [hexDigit (n / 4096 % 16), hexDigit (n / 256 % 16),
    hexDigit (n / 16 % 16), hexDigit (n % 16)]

/-- Escape one character the way CPython's `json.dumps` does with the default
`ensure_ascii=True`: short escapes for the two-character sequences, `\uXXXX`
for other characters outside `0x20`–`0x7e`, surrogate pairs beyond the BMP. -/
def jsonEscapeChar (ch : Char) : String :=
  if ch = '"' then "\\\""
  else if ch = '\\' then "\\\\"
  else if ch = '\n' then "\\n"
  else if ch = '\r' then "\\r"
  else if ch = '\t' then "\\t"
  else if ch = Char.ofNat 8 then "\\b"
  else if ch = Char.ofNat 12 then "\\f"
  else if ch.toNat < 32 then uEscape ch.toNat
  else if ch.toNat < 127 then String.mk [ch]
  else if ch.toNat < 65536 then uEscape ch.toNat
  else uEscape (55296 + (ch.toNat - 65536) / 1024) ++ uEscape (56320 + (ch.toNat - 65536) % 1024)

/-- Escape a whole string for JSON output. -/
def jsonEscape (s : String) : String :=
  String.join (s.data.map jsonEscapeChar)

/-- A JSON string literal: `"` + escaped body + `"`. -/
def jsonStr (s : String) : String :=
  "\"" ++ jsonEscape s ++ "\""

/-- JSON object for a context dict, with CPython's default separators. -/
def ctxJson (c : ContextMap) : String :=
  "\x7b" ++ String.intercalate ", " (c.map (fun p => jsonStr p.1 ++ ": " ++ jsonStr p.2)) ++ "\x7d"

/-- The dict literal every finalisation helper passes to `json.dumps`:
two keys, `"content"` and `"context_variables"`, in that order. -/
structure Payload where
  content : String
  context_variables : ContextMap
deriving DecidableEq, Repr

/-- `json.dumps({"content": p.content, "context_variables": p.context_variables})`. -/
def dumpsPayload (p : Payload) : String :=
  "\x7b" ++ jsonStr "content" ++ ": " ++ jsonStr p.content ++ ", " ++
    jsonStr "context_variables" ++ ": " ++ ctxJson p.context_variables ++ "\x7d"

/-! ### Finalisation functions (source lines 272–339) -/

/-- `_finalise_response` (line 272): `json.dumps` of the canonical closing
message together with the received context variables. -/
def finalise_response (context_variables : ContextMap) : String :=
  dumpsPayload ⟨"Thank you for using the University Support System. If you have more questions, feel free to reach out!",
    context_variables⟩

/-- The dict built by `_course_advisor_finalise` (line 306) before serialisation:
content is the string produced by `_finalise_response`, context unchanged. -/
def course_advisor_finalise_payload (context_variables : ContextMap) : Payload :=
  ⟨finalise_response context_variables, context_variables⟩

/-- `_course_advisor_finalise` (line 306): the serialised payload string. -/
def course_advisor_finalise (context_variables : ContextMap) : String :=
  dumpsPayload (course_advisor_finalise_payload context_variables)

/-- `_university_poet_haiku` (line 326): the fixed triple-quoted f-string,
reproduced with its leading newline and 12-space indentation. -/
def university_poet_haiku : String :=
  "\n            A student asks why,\n            Campus calls with ancient tales,\n            Wisdom finds its way.\n            "

/-- The dict built by `_university_poet_finalise` (line 314) before
serialisation: the haiku when `context_variables.get('response_haiku') == 'true'`,
otherwise the `_finalise_response` string; context unchanged either way. -/
def university_poet_finalise_payload (context_variables : ContextMap) : Payload :=
  if ctxGet context_variables "response_haiku" = some "true" then
    ⟨university_poet_haiku, context_variables⟩
  else
    ⟨finalise_response context_variables, context_variables⟩

/-- `_university_poet_finalise` (line 314): the serialised payload string. -/
def university_poet_finalise (context_variables : ContextMap) : String :=
  dumpsPayload (university_poet_finalise_payload context_variables)

/-- The dict built by `_scheduling_assistant_finalise` (line 334) before
serialisation. -/
def scheduling_assistant_finalise_payload (context_variables : ContextMap) : Payload :=
  ⟨finalise_response context_variables, context_variables⟩

/-- `_scheduling_assistant_finalise` (line 334): the serialised payload string. -/
def scheduling_assistant_finalise (context_variables : ContextMap) : String :=
  dumpsPayload (scheduling_assistant_finalise_payload context_variables)

/-! ### Agents and handoff (routing) functions (source lines 284–303) -/

/-- A swarm `Agent` as far as the orchestration core observes it: its name and
instruction text (both immutable for the session). -/
structure Agent where
  name : String
  instructions : String
deriving DecidableEq, Repr

/-- `self.swarm.agents`: the registry dict from agent name to agent. -/
abbrev Registry := List (String × Agent)

/-- `agents.get(name)` on the registry dict. -/
def registryGet (agents : Registry) (k : String) : Option Agent :=
  (agents.find? (fun p => p.1 == k)).map Prod.snd

/-- `_triage_to_course_advisor` (line 284): returns
`self.swarm.agents.get("CourseAdvisor")`; the context argument is ignored and
no transcript is in scope at all. -/
def triage_to_course_advisor (agents : Registry) (context_variables : ContextMap) : Option Agent :=
  registryGet agents "CourseAdvisor"

/-- `_triage_to_university_poet` (line 291). -/
def triage_to_university_poet (agents : Registry) (context_variables : ContextMap) : Option Agent :=
  registryGet agents "UniversityPoet"

/-- `_triage_to_scheduling_assistant` (line 298). -/
def triage_to_scheduling_assistant (agents : Registry) (context_variables : ContextMap) : Option Agent :=
  registryGet agents "SchedulingAssistant"

/-! ### Facts about the serialised payloads -/

theorem data_append (a b : String) : (a ++ b).data = a.data ++ b.data := by
  cases a; cases b; rfl

/-- Every serialised payload starts with the character `{` (0x7b). -/
theorem dumpsPayload_head (p : Payload) :
    (dumpsPayload p).data.head? = some (Char.ofNat 123) := by
  unfold dumpsPayload
  rw [data_append, data_append, data_append, data_append, data_append, data_append]
  rfl

/-- The haiku starts with a newline, so it is never a serialised payload;
in particular it differs from every `_finalise_response` output. -/
theorem haiku_ne_finalise_response (c : ContextMap) :
    university_poet_haiku ≠ finalise_response c := by
  intro h
  have h1 : university_poet_haiku.data.head? = some '\n' := rfl
  have h2 : (finalise_response c).data.head? = some (Char.ofNat 123) :=
    dumpsPayload_head _
  rw [h] at h1
  rw [h1] at h2
  simp at h2

/-- C5: the poet's finalisation payload content is the fixed haiku exactly when
the context maps `response_haiku` to the string `true`; for every other value
of that key, including its absence, the content is the string produced by the
shared `_finalise_response` routine. -/
theorem poet_finalise_haiku_iff (c : ContextMap) :
    ((university_poet_finalise_payload c).content = university_poet_haiku ↔
      ctxGet c "response_haiku" = some "true") ∧
    (ctxGet c "response_haiku" ≠ some "true" →
      (university_poet_finalise_payload c).content = finalise_response c) := by
  unfold university_poet_finalise_payload
  by_cases h : ctxGet c "response_haiku" = some "true"
  · rw [if_pos h]
    exact ⟨⟨fun _ => h, fun _ => rfl⟩, fun hn => absurd h hn⟩
  · rw [if_neg h]
    refine ⟨⟨fun he => ?_, fun ht => absurd ht h⟩, fun _ => rfl⟩
    exact absurd he.symm (haiku_ne_finalise_response c)

/-- C5 witness: concrete instances of both branches. -/
theorem poet_finalise_haiku_iff_witness :
    (university_poet_finalise_payload [("response_haiku", "true")]).content =
      university_poet_haiku ∧
    (university_poet_finalise_payload [("response_haiku", "false")]).content =
      finalise_response [("response_haiku", "false")] :=
  ⟨(poet_finalise_haiku_iff [("response_haiku", "true")]).1.mpr (by decide),
   (poet_finalise_haiku_iff [("response_haiku", "false")]).2 (by decide)⟩

/-- C6: each dispatcher routing tool is a pure function of its arguments and
ignores the context entirely — with the same registry, any two contexts give
the same routing target; no transcript parameter exists in the source. -/
theorem triage_routing_pure (agents : Registry) (c₁ c₂ : ContextMap) :
    triage_to_course_advisor agents c₁ = triage_to_course_advisor agents c₂ ∧
    triage_to_university_poet agents c₁ = triage_to_university_poet agents c₂ ∧
    triage_to_scheduling_assistant agents c₁ = triage_to_scheduling_assistant agents c₂ :=
  ⟨rfl, rfl, rfl⟩

/-- C10: every finalisation handler embeds the context dict it received
unchanged in the `context_variables` field of its payload. -/
theorem finalise_context_unchanged (c : ContextMap) :
    (course_advisor_finalise_payload c).context_variables = c ∧
    (university_poet_finalise_payload c).context_variables = c ∧
    (scheduling_assistant_finalise_payload c).context_variables = c := by
  refine ⟨rfl, ?_, rfl⟩
  unfold university_poet_finalise_payload
  by_cases h : ctxGet c "response_haiku" = some "true"
  · rw [if_pos h]
  · rw [if_neg h]

/-! ### Messages and the conversation loop (`execute`, source lines 345–430)

The `execute` method's IO preamble (environment validation, database setup,
`input()`) is elided; the embedding starts at line 374 where `TriageAgent` is
looked up and the conversation loop begins.  Each call to
`self.client.run(...)` — the external executor, out of scope per the
specification — is represented by the next element of a finite oracle list of
turn outcomes: either a swarm `Response` or a raised exception. -/

/-- A value in the `response.messages` list: either a Python dict with string
values, or something that is not a dict (the loop body tests
`isinstance(message, dict)`). -/
inductive PyMsg where
  | dict (entries : List (String × String)) : PyMsg
  | nonDict : PyMsg
deriving DecidableEq, Repr

/-- `'content' in message` for a dict. -/
def entriesHasKey (entries : List (String × String)) (k : String) : Bool :=
  entries.any (fun p => p.1 == k)

/-- The filter applied at lines 403–409: keep a message exactly when it is a
dict containing the key `'content'`. -/
def keepMessage : PyMsg → Bool
  | .dict entries => entriesHasKey entries "content"
  | .nonDict => false

/-- `msg.get(k, d)`: lookup with default (every transcript element is a dict,
so the `nonDict` case is unreachable there). -/
def msgGetD (m : PyMsg) (k d : String) : String :=
  match m with
  | .dict entries =>
    match entries.find? (fun p => p.1 == k) with
    | some p => p.2
    | none => d
  | .nonDict => d

/-- Boolean substring test, the Python `needle in hay`. -/
def containsSub (hay needle : String) : Bool :=
  (List.range (hay.data.length + 1)).any (fun i => needle.data.isPrefixOf (hay.data.drop i))

/-- The closing sentinel scanned for at line 417. -/
def SENTINEL : String := "Thank you for using the University Support System"

/-- A swarm `Response` as the loop consumes it: produced messages, the next
active agent (`None` when falsy), and updated context variables.  The
`tool_calls` field is ghost instrumentation mirroring the specification's
executor interface (`toolInvocations`): the handler names the executor ran
with the context each received; the driver code never reads it. -/
structure Response where
  messages : List PyMsg
  agent : Option Agent
  context_variables : ContextMap
  tool_calls : List (String × ContextMap)
deriving DecidableEq, Repr

/-- One executor invocation: a response, or a raised exception with message. -/
inductive TurnOutcome where
  | ok (r : Response) : TurnOutcome
  | err (e : String) : TurnOutcome
deriving DecidableEq, Repr

/-- The loop's mutable state: `messages`, `context_variables`, `active_agent`. -/
structure LoopSt where
  messages : List PyMsg
  context_variables : ContextMap
  active_agent : Agent
deriving DecidableEq, Repr

/-- One iteration's state update (lines 403–416): append the content-bearing
dict messages in order; if the response names an agent, switch to it and
replace the context only when the returned context dict is non-empty
(`if response.context_variables:`). -/
def stepLoopState (st : LoopSt) (r : Response) : LoopSt :=
  let msgs := st.messages ++ r.messages.filter keepMessage
  match r.agent with
  | some a =>
    { messages := msgs
      context_variables := if r.context_variables.isEmpty then st.context_variables else r.context_variables
      active_agent := a }
  | none =>
    { messages := msgs
      context_variables := st.context_variables
      active_agent := st.active_agent }

/-- A value of the dict `execute` returns to its caller. -/
inductive MetaVal where
  | str (s : String) : MetaVal
  | strList (l : List String) : MetaVal
deriving DecidableEq, Repr

/-- A top-level value of the result dict. -/
inductive PyVal where
  | str (s : String) : PyVal
  | msgList (ms : List PyMsg) : PyVal
  | metaObj (entries : List (String × MetaVal)) : PyVal
deriving DecidableEq, Repr

/-- The result dict returned by `execute`. -/
abbrev ResultDict := List (String × PyVal)

/-- The constant `self.metadata` property (lines 62–69). -/
def metadata : List (String × MetaVal) :=
  [("title", .str "University Support System"),
   ("description", .str "Multi-agent system for university support using MCP tools."),
   ("required_mcp_servers", .strList ["sqlite"]),
   ("env_vars", .strList ["SQLITE_DB_PATH"])]

/-- The success dict at lines 426–430. -/
def successResult (messages : List PyMsg) : ResultDict :=
  [("status", .str "success"), ("messages", .msgList messages), ("metadata", .metaObj metadata)]

/-- The failure dict at lines 397–401. -/
def failureResult (error : String) : ResultDict :=
  [("status", .str "failure"), ("error", .str error), ("metadata", .metaObj metadata)]

/-- Lookup in a result dict. -/
def resultGet (d : ResultDict) (k : String) : Option PyVal :=
  (d.find? (fun p => p.1 == k)).map Prod.snd

/-- The transcript a result carries, when it carries one. -/
def resultMessages (d : ResultDict) : Option (List PyMsg) :=
  match resultGet d "messages" with
  | some (.msgList ms) => some ms
  | _ => none

/-- The status string of a result. -/
def resultStatus (d : ResultDict) : Option String :=
  match resultGet d "status" with
  | some (.str s) => some s
  | _ => none

/-- The error string a result carries, when it carries one. -/
def resultError (d : ResultDict) : Option String :=
  match resultGet d "error" with
  | some (.str s) => some s
  | _ => none

/-- The `while active_agent:` loop (lines 389–430), consuming the executor
oracle one outcome per iteration.  An exception returns the failure dict at
once (lines 395–401).  A response first has its content-bearing dict messages
appended; if it names an agent the loop continues, otherwise both the
sentinel branch (line 417) and the fallback branch (line 420) break and the
success dict is returned.  `none` means the oracle was exhausted while the
loop was still running. -/
def runLoop : LoopSt → List TurnOutcome → Option ResultDict
  | _, [] => none
  | _, .err e :: _ => some (failureResult ("Error during interaction: " ++ e))
  | st, .ok r :: rest =>
    let st' := stepLoopState st r
    match r.agent with
    | some _ => runLoop st' rest
    | none =>
      if st'.messages.any (fun m => containsSub (msgGetD m "content" "") SENTINEL) then
        some (successResult st'.messages)
      else
        some (successResult st'.messages)

/-- The initial transcript (lines 384–386): the single user message. -/
def initMessages (user_query : String) : List PyMsg :=
  [.dict [("role", "user"), ("content", user_query)]]

/-- `execute` from line 374 on: look up `TriageAgent` (failure dict at lines
377–381 if absent), then run the loop from the initial state — user message
as the whole transcript, empty context, `TriageAgent` active. -/
def execute (agents : Registry) (user_query : String) (trace : List TurnOutcome) :
    Option ResultDict :=
  match registryGet agents "TriageAgent" with
  | none => some (failureResult "TriageAgent not found.")
  | some starting_agent =>
    runLoop ⟨initMessages user_query, [], starting_agent⟩ trace

/-! ### Basic facts about the loop -/

theorem stepLoopState_messages (st : LoopSt) (r : Response) :
    (stepLoopState st r).messages = st.messages ++ r.messages.filter keepMessage := by
  unfold stepLoopState
  cases r.agent <;> rfl

theorem runLoop_err_eq (st : LoopSt) (e : String) (rest : List TurnOutcome) :
    runLoop st (.err e :: rest) = some (failureResult ("Error during interaction: " ++ e)) :=
  rfl

theorem runLoop_ok_some_eq (st : LoopSt) (r : Response) (rest : List TurnOutcome)
    (a : Agent) (h : r.agent = some a) :
    runLoop st (.ok r :: rest) = runLoop (stepLoopState st r) rest := by
  simp only [runLoop, h]

theorem runLoop_ok_none_eq (st : LoopSt) (r : Response) (rest : List TurnOutcome)
    (h : r.agent = none) :
    runLoop st (.ok r :: rest) = some (successResult (stepLoopState st r).messages) := by
  simp only [runLoop, h, ite_self]

theorem resultMessages_success (ms : List PyMsg) :
    resultMessages (successResult ms) = some ms := rfl

theorem resultMessages_failure (e : String) :
    resultMessages (failureResult e) = none := rfl

/-- Every transcript a completed loop run returns extends the transcript of
the state the run started from. -/
theorem runLoop_messages_extend :
    ∀ (trace : List TurnOutcome) (st : LoopSt) (res : ResultDict) (ms : List PyMsg),
      runLoop st trace = some res → resultMessages res = some ms → st.messages <+: ms := by
  intro trace
  induction trace with
  | nil => intro st res ms h _; simp [runLoop] at h
  | cons o rest ih =>
    intro st res ms h hms
    cases o with
    | err e =>
      rw [runLoop_err_eq] at h
      rw [← Option.some_inj.mp h, resultMessages_failure] at hms
      exact absurd hms (by simp)
    | ok r =>
      cases hr : r.agent with
      | some a =>
        rw [runLoop_ok_some_eq st r rest a hr] at h
        have h2 := ih (stepLoopState st r) res ms h hms
        refine List.IsPrefix.trans ?_ h2
        rw [stepLoopState_messages]
        exact List.prefix_append _ _
      | none =>
        rw [runLoop_ok_none_eq st r rest hr] at h
        rw [← Option.some_inj.mp h, resultMessages_success] at hms
        rw [← Option.some_inj.mp hms, stepLoopState_messages]
        exact List.prefix_append _ _

/-- Every message in a returned transcript either was already in the starting
transcript or is a content-bearing dict. -/
theorem runLoop_messages_sources :
    ∀ (trace : List TurnOutcome) (st : LoopSt) (res : ResultDict) (ms : List PyMsg),
      runLoop st trace = some res → resultMessages res = some ms →
      ∀ m ∈ ms, m ∈ st.messages ∨ keepMessage m = true := by
  intro trace
  induction trace with
  | nil => intro st res ms h _; simp [runLoop] at h
  | cons o rest ih =>
    intro st res ms h hms m hm
    cases o with
    | err e =>
      rw [runLoop_err_eq] at h
      rw [← Option.some_inj.mp h, resultMessages_failure] at hms
      exact absurd hms (by simp)
    | ok r =>
      cases hr : r.agent with
      | some a =>
        rw [runLoop_ok_some_eq st r rest a hr] at h
        rcases ih (stepLoopState st r) res ms h hms m hm with hin | hkeep
        · rw [stepLoopState_messages] at hin
          rcases List.mem_append.mp hin with h1 | h2
          · exact Or.inl h1
          · exact Or.inr (List.mem_filter.mp h2).2
        · exact Or.inr hkeep
      | none =>
        rw [runLoop_ok_none_eq st r rest hr] at h
        rw [← Option.some_inj.mp h, resultMessages_success] at hms
        rw [← Option.some_inj.mp hms, stepLoopState_messages] at hm
        rcases List.mem_append.mp hm with h1 | h2
        · exact Or.inl h1
        · exact Or.inr (List.mem_filter.mp h2).2

/-- Every result a completed loop run returns is the success dict for some
transcript or the failure dict for some error string. -/
theorem runLoop_result_shape :
    ∀ (trace : List TurnOutcome) (st : LoopSt) (res : ResultDict),
      runLoop st trace = some res →
      (∃ ms, res = successResult ms) ∨ (∃ e, res = failureResult e) := by
  intro trace
  induction trace with
  | nil => intro st res h; simp [runLoop] at h
  | cons o rest ih =>
    intro st res h
    cases o with
    | err e =>
      rw [runLoop_err_eq] at h
      exact Or.inr ⟨_, (Option.some_inj.mp h).symm⟩
    | ok r =>
      cases hr : r.agent with
      | some a =>
        rw [runLoop_ok_some_eq st r rest a hr] at h
        exact ih (stepLoopState st r) res h
      | none =>
        rw [runLoop_ok_none_eq st r rest hr] at h
        exact Or.inl ⟨_, (Option.some_inj.mp h).symm⟩

/-- A string is a substring of any string it ends. -/
theorem containsSub_append_self (a b : String) : containsSub (a ++ b) b = true := by
  unfold containsSub
  apply List.any_eq_true.mpr
  refine ⟨a.data.length, List.mem_range.mpr ?_, ?_⟩
  · rw [data_append, List.length_append]
    omega
  · rw [data_append, List.drop_left]
    rw [List.isPrefixOf_iff_prefix]

/-! ### Claim theorems about the loop -/

/-- C2: an executor exception is fatal — whatever the rest of the oracle
holds, the loop returns at once (no retry, no further invocation) with the
failure dict whose status is `failure` and whose error string carries the
exception's message. -/
theorem executor_error_fatal (st : LoopSt) (e : String) (rest : List TurnOutcome) :
    runLoop st (.err e :: rest) = some (failureResult ("Error during interaction: " ++ e)) ∧
    resultStatus (failureResult ("Error during interaction: " ++ e)) = some "failure" ∧
    resultError (failureResult ("Error during interaction: " ++ e)) =
      some ("Error during interaction: " ++ e) ∧
    containsSub ("Error during interaction: " ++ e) e = true :=
  ⟨rfl, rfl, rfl, containsSub_append_self "Error during interaction: " e⟩

/-- C4: with `TriageAgent` registered, every session starts the loop with the
registry's `TriageAgent` as the active agent; and whenever a turn's response
names no next agent, the loop stops right after that turn — independently of
the closing sentinel, of any tool calls, and of the remaining oracle — so a
session whose first response names no agent terminates after exactly one
turn. -/
theorem starts_triage_one_turn_stop (agents : Registry) (q : String) (ag : Agent)
    (r : Response) (rest : List TurnOutcome)
    (hreg : registryGet agents "TriageAgent" = some ag) :
    execute agents q (.ok r :: rest) =
      runLoop ⟨initMessages q, [], ag⟩ (.ok r :: rest) ∧
    (r.agent = none →
      execute agents q (.ok r :: rest) =
        some (successResult (initMessages q ++ r.messages.filter keepMessage))) := by
  constructor
  · simp only [execute, hreg]
  · intro hnone
    simp only [execute, hreg]
    rw [runLoop_ok_none_eq _ _ _ hnone, stepLoopState_messages]

/-- C4 witness: a concrete one-response session. -/
theorem starts_triage_one_turn_stop_witness :
    execute [("TriageAgent", ⟨"TriageAgent", "triage"⟩)] "hi"
        [.ok ⟨[], none, [], []⟩] =
      some (successResult (initMessages "hi" ++ List.filter keepMessage [])) :=
  (starts_triage_one_turn_stop [("TriageAgent", ⟨"TriageAgent", "triage"⟩)] "hi"
    ⟨"TriageAgent", "triage"⟩ ⟨[], none, [], []⟩ [] (by decide)).2 rfl

/-- C7: the transcript is append-only — each iteration's transcript extends
the previous one as a prefix, the new segment is that turn's produced
messages in their original order, and the transcript a completed run returns
extends every transcript the run passed through. -/
theorem transcript_append_only (st : LoopSt) (r : Response)
    (trace : List TurnOutcome) (res : ResultDict) (ms : List PyMsg) :
    st.messages <+: (stepLoopState st r).messages ∧
    (stepLoopState st r).messages = st.messages ++ r.messages.filter keepMessage ∧
    (runLoop st trace = some res → resultMessages res = some ms → st.messages <+: ms) := by
  refine ⟨?_, stepLoopState_messages st r, fun h hms => runLoop_messages_extend trace st res ms h hms⟩
  rw [stepLoopState_messages]
  exact List.prefix_append _ _

/-- C7 witness: the theorem applied to a concrete completed run. -/
theorem transcript_append_only_witness :
    (⟨initMessages "hi", [], ⟨"TriageAgent", "triage"⟩⟩ : LoopSt).messages <+:
      initMessages "hi" :=
  (transcript_append_only ⟨initMessages "hi", [], ⟨"TriageAgent", "triage"⟩⟩
    ⟨[], none, [], []⟩ [.ok ⟨[], none, [], []⟩]
    (successResult (initMessages "hi")) (initMessages "hi")).2.2 (by decide) (by decide)

/-- C8: the session context is replaced by the response's context exactly when
the response names a next agent and its context dict is non-empty; in every
other case — in particular on a terminating turn, whose context update is
thereby discarded — the context is left untouched. -/
theorem context_update_guarded (st : LoopSt) (r : Response) :
    (∀ a, r.agent = some a → r.context_variables ≠ [] →
      (stepLoopState st r).context_variables = r.context_variables) ∧
    (r.agent = none → (stepLoopState st r).context_variables = st.context_variables) ∧
    (r.context_variables = [] → (stepLoopState st r).context_variables = st.context_variables) := by
  refine ⟨fun a ha hne => ?_, fun ha => ?_, fun hce => ?_⟩
  · unfold stepLoopState
    rw [ha]
    simp only [List.isEmpty_iff, if_neg hne]
  · unfold stepLoopState
    rw [ha]
  · cases ha : r.agent with
    | some a => simp [stepLoopState, ha, hce]
    | none => unfold stepLoopState; rw [ha]

/-- C8 witness: both the replacement case and the terminating-turn discard. -/
theorem context_update_guarded_witness :
    (stepLoopState ⟨initMessages "hi", [("old", "1")], ⟨"TriageAgent", "triage"⟩⟩
        ⟨[], some ⟨"UniversityPoet", "poet"⟩, [("k", "v")], []⟩).context_variables =
      [("k", "v")] ∧
    (stepLoopState ⟨initMessages "hi", [("old", "1")], ⟨"TriageAgent", "triage"⟩⟩
        ⟨[], none, [("k", "v")], []⟩).context_variables = [("old", "1")] :=
  ⟨(context_update_guarded ⟨initMessages "hi", [("old", "1")], ⟨"TriageAgent", "triage"⟩⟩
      ⟨[], some ⟨"UniversityPoet", "poet"⟩, [("k", "v")], []⟩).1
      ⟨"UniversityPoet", "poet"⟩ rfl (by decide),
   (context_update_guarded ⟨initMessages "hi", [("old", "1")], ⟨"TriageAgent", "triage"⟩⟩
      ⟨[], none, [("k", "v")], []⟩).2.1 rfl⟩

/-- C9: a turn appends exactly the produced messages that are dicts containing
a `content` key, in their original order; a produced message without a
`content` key never reaches any returned transcript (unless it was already in
the starting transcript). -/
theorem messages_filtered_append (st : LoopSt) (r : Response)
    (trace : List TurnOutcome) (res : ResultDict) (ms : List PyMsg) :
    (stepLoopState st r).messages = st.messages ++ r.messages.filter keepMessage ∧
    (∀ m, m ∈ r.messages.filter keepMessage ↔ m ∈ r.messages ∧ keepMessage m = true) ∧
    List.Sublist (r.messages.filter keepMessage) r.messages ∧
    (runLoop st trace = some res → resultMessages res = some ms →
      ∀ m ∈ ms, m ∈ st.messages ∨ keepMessage m = true) :=
  ⟨stepLoopState_messages st r, fun _ => List.mem_filter,
   List.filter_sublist r.messages,
   fun h hms => runLoop_messages_sources trace st res ms h hms⟩

/-- C9 witness: a concrete run whose response carries one content dict, one
content-free dict and one non-dict; only the content dict is appended. -/
theorem messages_filtered_append_witness :
    PyMsg.dict [("role", "assistant"), ("content", "x")] ∈
        (⟨initMessages "hi", [], ⟨"TriageAgent", "triage"⟩⟩ : LoopSt).messages ∨
      keepMessage (PyMsg.dict [("role", "assistant"), ("content", "x")]) = true :=
  (messages_filtered_append ⟨initMessages "hi", [], ⟨"TriageAgent", "triage"⟩⟩
    ⟨[.dict [("role", "assistant"), ("content", "x")], .dict [("role", "assistant")], .nonDict],
      none, [], []⟩
    [.ok ⟨[.dict [("role", "assistant"), ("content", "x")], .dict [("role", "assistant")], .nonDict],
      none, [], []⟩]
    (successResult (initMessages "hi" ++ [.dict [("role", "assistant"), ("content", "x")]]))
    (initMessages "hi" ++ [.dict [("role", "assistant"), ("content", "x")]])).2.2.2
    (by decide) (by decide)
    (PyMsg.dict [("role", "assistant"), ("content", "x")]) (by decide)

/-! ### Structure of the caller-facing result (C3) -/

/-- C3 counterexample: a session whose second executor invocation raises.  The
transcript accumulated up to the failure holds the user message, yet the
returned dict is exactly the failure dict — status, error and metadata — with
no transcript under any key and no context entry, contradicting the claim
that the result always carries the accumulated transcript and the final
context map. -/
theorem result_structured_cex :
    execute [("TriageAgent", ⟨"TriageAgent", "triage"⟩)] "hi" [.err "boom"] =
      some (failureResult "Error during interaction: boom") ∧
    resultMessages (failureResult "Error during interaction: boom") = none ∧
    resultGet (failureResult "Error during interaction: boom") "context" = none ∧
    resultGet (failureResult "Error during interaction: boom") "context_variables" = none := by
  refine ⟨by decide, rfl, rfl, rfl⟩

/-- C3 amended: every completed loop run returns a structured result whose
status distinguishes success from failure; a success result carries the full
accumulated transcript (extending the starting transcript) and no error; a
failure result carries the error string but no transcript.  Neither carries
the context map. -/
theorem result_structured (st : LoopSt) (trace : List TurnOutcome) (res : ResultDict)
    (h : runLoop st trace = some res) :
    (resultStatus res = some "success" ∧ resultError res = none ∧
      ∃ ms, resultMessages res = some ms ∧ st.messages <+: ms) ∨
    (resultStatus res = some "failure" ∧ resultMessages res = none ∧
      ∃ e, resultError res = some e) := by
  rcases runLoop_result_shape trace st res h with ⟨ms, rfl⟩ | ⟨e, rfl⟩
  · exact Or.inl ⟨rfl, rfl, ms, rfl,
      runLoop_messages_extend trace st (successResult ms) ms h rfl⟩
  · exact Or.inr ⟨rfl, rfl, e, rfl⟩

/-- C3 witness: the theorem applied to a concrete failing run. -/
theorem result_structured_witness :
    (resultStatus (failureResult "Error during interaction: boom") = some "success" ∧
      resultError (failureResult "Error during interaction: boom") = none ∧
      ∃ ms, resultMessages (failureResult "Error during interaction: boom") = some ms ∧
        (⟨initMessages "hi", [], ⟨"TriageAgent", "triage"⟩⟩ : LoopSt).messages <+: ms) ∨
    (resultStatus (failureResult "Error during interaction: boom") = some "failure" ∧
      resultMessages (failureResult "Error during interaction: boom") = none ∧
      ∃ e, resultError (failureResult "Error during interaction: boom") = some e) :=
  result_structured ⟨initMessages "hi", [], ⟨"TriageAgent", "triage"⟩⟩
    [.err "boom"] (failureResult "Error during interaction: boom") (by decide)

/-! ### The finalisation payload in the transcript (C1) -/

/-- Ghost table tying the specialists' registered finalisation tools
(`create_agents`, lines 237–242) to the payload each returns — the
specification's `Terminate(payload, context)` transitions. -/
def finaliseHandlerPayload : String → ContextMap → Option String
  | "course_advisor_finalise", c => some (course_advisor_finalise c)
  | "university_poet_finalise", c => some (university_poet_finalise c)
  | "scheduling_assistant_finalise", c => some (scheduling_assistant_finalise c)
  | _, _ => none

/-- C1 counterexample: a session that ends via the course advisor's
finalisation tool (recorded in the response's tool calls, payload included in
the produced messages), but whose executor produced one more assistant
message after the tool result.  The driver appends the executor's messages as
given, so the final transcript message content is `Goodbye!`, not the
finalisation payload — the payload is not the last message's content. -/
theorem terminate_payload_cex :
    execute [("TriageAgent", ⟨"TriageAgent", "triage"⟩)] "hi"
        [.ok ⟨[.dict [("role", "tool"), ("content", course_advisor_finalise [])],
               .dict [("role", "assistant"), ("content", "Goodbye!")]],
              none, [], [("course_advisor_finalise", [])]⟩] =
      some (successResult
        [.dict [("role", "user"), ("content", "hi")],
         .dict [("role", "tool"), ("content", course_advisor_finalise [])],
         .dict [("role", "assistant"), ("content", "Goodbye!")]]) ∧
    finaliseHandlerPayload "course_advisor_finalise" [] = some (course_advisor_finalise []) ∧
    (([.dict [("role", "user"), ("content", "hi")],
       .dict [("role", "tool"), ("content", course_advisor_finalise [])],
       .dict [("role", "assistant"), ("content", "Goodbye!")]] : List PyMsg).getLast?).map
        (fun mm => msgGetD mm "content" "") = some "Goodbye!" ∧
    "Goodbye!" ≠ course_advisor_finalise [] := by
  refine ⟨by decide, rfl, rfl, by decide⟩

/-- C1 amended: when a session ends via a finalisation tool, the payload is
the final transcript message content provided the executor listed the payload
message as the last content-bearing message of its terminating response; the
driver preserves the executor's messages verbatim and in order but never
appends the payload itself. -/
theorem terminate_payload_amended (st : LoopSt) (r : Response) (rest : List TurnOutcome)
    (toolName : String) (c : ContextMap) (p : String) (m : PyMsg)
    (hagent : r.agent = none)
    (htool : (toolName, c) ∈ r.tool_calls)
    (hfin : finaliseHandlerPayload toolName c = some p)
    (hlast : (r.messages.filter keepMessage).getLast? = some m)
    (hcontent : msgGetD m "content" "" = p) :
    runLoop st (.ok r :: rest) =
      some (successResult (st.messages ++ r.messages.filter keepMessage)) ∧
    ((st.messages ++ r.messages.filter keepMessage).getLast?).map
      (fun mm => msgGetD mm "content" "") = some p := by
  constructor
  · rw [runLoop_ok_none_eq _ _ _ hagent, stepLoopState_messages]
  · rw [List.getLast?_append, hlast]
    simp [hcontent]

/-- C1 witness: a run whose terminating response ends with the payload
message; the payload is then the final transcript content. -/
theorem terminate_payload_amended_witness :
    runLoop ⟨initMessages "hi", [], ⟨"TriageAgent", "triage"⟩⟩
        [.ok ⟨[.dict [("role", "tool"), ("content", course_advisor_finalise [])]],
              none, [], [("course_advisor_finalise", [])]⟩] =
      some (successResult (initMessages "hi" ++
        List.filter keepMessage
          [.dict [("role", "tool"), ("content", course_advisor_finalise [])]])) ∧
    ((initMessages "hi" ++
        List.filter keepMessage
          [.dict [("role", "tool"), ("content", course_advisor_finalise [])]]).getLast?).map
      (fun mm => msgGetD mm "content" "") = some (course_advisor_finalise []) :=
  terminate_payload_amended ⟨initMessages "hi", [], ⟨"TriageAgent", "triage"⟩⟩
    ⟨[.dict [("role", "tool"), ("content", course_advisor_finalise [])]],
      none, [], [("course_advisor_finalise", [])]⟩
    [] "course_advisor_finalise" [] (course_advisor_finalise [])
    (.dict [("role", "tool"), ("content", course_advisor_finalise [])])
    rfl (by decide) rfl (by decide) rfl

end UniversityBlueprint
